import Mathlib

set_option maxRecDepth 2048

/-!
Shallow embedding of the gcp-weather-pipeline repository
(scripts/complete_pipeline.py, scripts/fetch_and_upload.py,
scripts/fetch_weather.py, scripts/load_to_bigquery.py).

Python `datetime` values are modelled as UTC instants with microsecond
precision; every call to `datetime.utcnow()` is an explicit `Instant`
argument, so independent clock samples in the source become independent
arguments here.  Python dictionaries coming from `response.json()` are a
`Json` tree, and dictionary access that can raise (`data["sys"]`) runs in
`Except PyErr`.  A `try/except` block in the source becomes a `match` on
that `Except`.
-/

namespace WeatherPipeline

/-- A naive `datetime` value as the scripts use them: seconds since the Unix
epoch plus a microsecond part (`usec < 1000000` for values produced by the
clock; the formatting functions take it mod 1000000 anyway). -/
structure Instant where
  sec : Nat
  usec : Nat
  deriving Repr, DecidableEq

/-- Civil date from a count of days since 1970-01-01 (proleptic Gregorian,
the conversion `datetime` performs).  Returns (year, month, day). -/
def civilFromDays (z : Nat) : Nat × Nat × Nat :=
  let z' := z + 719468
  let era := z' / 146097
  let doe := z' % 146097
  let yoe := (doe - doe / 1460 + doe / 36524 - doe / 146097) / 365
  let y := yoe + era * 400
  let doy := doe - (365 * yoe + yoe / 4 - yoe / 100)
  let mp := (5 * doy + 2) / 153
  let d := doy - (153 * mp + 2) / 5 + 1
  let m := if mp < 10 then mp + 3 else mp - 9
  (if m ≤ 2 then y + 1 else y, m, d)

/-- Zero-pad a natural number to two digits, as `%02d` / `%m` / `%d` do. -/
def pad2 (n : Nat) : String :=
  if n < 10 then "0" ++ toString n else toString n

/-- Zero-pad to four digits (`%Y`). -/
def pad4 (n : Nat) : String :=
  if n < 10 then "000" ++ toString n
  else if n < 100 then "00" ++ toString n
  else if n < 1000 then "0" ++ toString n
  else toString n

/-- Zero-pad to six digits (the microsecond field of `isoformat`). -/
def pad6 (n : Nat) : String :=
  if n < 10 then "00000" ++ toString n
  else if n < 100 then "0000" ++ toString n
  else if n < 1000 then "000" ++ toString n
  else if n < 10000 then "00" ++ toString n
  else if n < 100000 then "0" ++ toString n
  else toString n

/-- Year of an instant. -/
def Instant.year (i : Instant) : Nat := (civilFromDays (i.sec / 86400)).1

/-- Month of an instant. -/
def Instant.month (i : Instant) : Nat := (civilFromDays (i.sec / 86400)).2.1

/-- Day of month of an instant. -/
def Instant.day (i : Instant) : Nat := (civilFromDays (i.sec / 86400)).2.2

/-- Hour of an instant. -/
def Instant.hour (i : Instant) : Nat := i.sec % 86400 / 3600

/-- Minute of an instant. -/
def Instant.minute (i : Instant) : Nat := i.sec % 3600 / 60

/-- Second-of-minute of an instant. -/
def Instant.second (i : Instant) : Nat := i.sec % 60

/-- `strftime('%Y-%m-%d')`. -/
def fmtDate (i : Instant) : String :=
  pad4 i.year ++ "-" ++ pad2 i.month ++ "-" ++ pad2 i.day

/-- `strftime('%H:%M:%S')`. -/
def fmtTime (i : Instant) : String :=
  pad2 i.hour ++ ":" ++ pad2 i.minute ++ ":" ++ pad2 i.second

/-- `strftime('%Y%m%d_%H%M%S')`, the artifact-name stamp. -/
def fmtCompact (i : Instant) : String :=
  pad4 i.year ++ pad2 i.month ++ pad2 i.day ++ "_" ++
    pad2 i.hour ++ pad2 i.minute ++ pad2 i.second

/-- `datetime.isoformat()`: `YYYY-MM-DDTHH:MM:SS` with a `.ffffff`
microsecond suffix exactly when the microsecond part is nonzero. -/
def isoformat (i : Instant) : String :=
  fmtDate i ++ "T" ++ fmtTime i ++
    (if i.usec % 1000000 = 0 then "" else "." ++ pad6 (i.usec % 1000000))

/-- A JSON value as returned by `response.json()`.  Numbers carry an
integer: the scripts never compute with a numeric payload field (they are
copied through opaquely), except for `sys.sunrise` / `sys.sunset`, which
the provider delivers as integral epoch seconds, so integer-valued JSON
numbers cover every computation the scripts perform. -/
inductive Json
  | null
  | num (q : Int)
  | str (s : String)
  | bool (b : Bool)
  | arr (xs : List Json)
  | obj (fields : List (String × Json))

/-- The Python exceptions the scripts can meet.  All of them derive from
`Exception`; only `requestException` (and `jsonDecodeError`, its subclass in
`requests`) also match `requests.exceptions.RequestException`. -/
inductive PyErr
  | keyError (k : String)
  | indexError
  | typeError
  | attributeError
  | requestException
  | jsonDecodeError
  | notFound
  | conflict
  | osError
  deriving Repr, DecidableEq

/-- `data[k]` on a JSON value: a key lookup on a dict, `KeyError` when the
key is absent, `TypeError` when the value is not a dict (a string subscript
on a list, string, number, ... raises `TypeError`). -/
def Json.getKey : Json → String → Except PyErr Json
  | .obj fields, k =>
      match fields.find? (fun kv => kv.1 = k) with
      | some kv => .ok kv.2
      | none => .error (.keyError k)
  | _, _ => .error .typeError

/-- `data[i]` with an integer index: element access on a list
(`IndexError` past the end), `KeyError` on a dict without that key,
`TypeError` otherwise. -/
def Json.getIdx : Json → Nat → Except PyErr Json
  | .arr xs, i =>
      match xs.get? i with
      | some x => .ok x
      | none => .error .indexError
  | .obj _, _ => .error (.keyError "0")
  | _, _ => .error .typeError

/-- `data.get(k, default)`: total on dicts, `AttributeError` on anything
else (only dicts have `.get`). -/
def Json.getD : Json → String → Json → Except PyErr Json
  | .obj fields, k, d =>
      match fields.find? (fun kv => kv.1 = k) with
      | some kv => .ok kv.2
      | none => .ok d
  | _, _, _ => .error .attributeError

/-- `k in data`: key membership on a dict; element equality on a list
(a string key equals only an equal string element); substring test on a
string; `TypeError` on numbers, booleans and `null`. -/
def Json.containsKey : Json → String → Except PyErr Bool
  | .obj fields, k => .ok (fields.any (fun kv => kv.1 = k))
  | .arr xs, k => .ok (xs.any (fun x => match x with | .str s => s = k | _ => false))
  | .str s, k => .ok (decide (k = "") || decide (s.replace k "" ≠ s))
  | _, _ => .error .typeError

/-- `datetime.fromtimestamp(q)` under a fixed local-timezone offset of
`tz` seconds east of UTC, followed by nothing: the resulting naive local
datetime.  `TypeError` when the argument is not a number.  (The scripts run
this on provider epoch seconds, which are well after 1970, so the
`Int.toNat` clamping below is never exercised on reachable inputs.) -/
def fromtimestamp (j : Json) (tz : Int) : Except PyErr Instant :=
  match j with
  | .num q => .ok ⟨(q + tz).toNat, 0⟩
  | _ => .error .typeError

/-- An HTTP response as `requests` hands it back: a status code and a body
that either parses as JSON or makes `response.json()` raise. -/
structure HttpResponse where
  status_code : Nat
  body : Option Json

/-- The outcome of `requests.get`: a response, or a raised
`requests.exceptions.RequestException` (DNS failure, refused connection,
timeout, ...). -/
inductive HttpOutcome
  | resp (r : HttpResponse)
  | requestException

/-- An HTTP request as issued by `requests.get(url, ...)`: the URL and the
`timeout` keyword argument (`none` when the call passes no timeout, so the
request can wait forever). -/
structure HttpRequest where
  url : String
  timeout : Option Nat
  deriving Repr, DecidableEq

/-- `response.json()`: the parsed body, or a raised decode error. -/
def HttpResponse.json (r : HttpResponse) : Except PyErr Json :=
  match r.body with
  | some j => .ok j
  | none => .error .jsonDecodeError

/-- The GCP environment configuration: `GCP_PROJECT_ID` and
`GCS_BUCKET_NAME` read from the environment (`none` = unset). -/
structure GcpEnv where
  project : Option String
  bucket : Option String
  deriving Repr, DecidableEq

/-- Python truthiness of `os.getenv(...)`: `None` and the empty string are
falsy, any other string is truthy. -/
def truthy : Option String → Bool
  | none => false
  | some s => s ≠ ""

/-- Calls made against the Cloud Storage SDK, recorded as a trace. -/
inductive StorageCall
  | clientInit (project : String)
  | bucketBind (bucket : String)
  | blobUpload (blobPath : String) (sourceFile : String)
  deriving Repr, DecidableEq

/-- `bigquery.SourceFormat` values used by the scripts. -/
inductive SourceFormat
  | NEWLINE_DELIMITED_JSON
  | CSV
  deriving Repr, DecidableEq

/-- `bigquery.WriteDisposition` values. -/
inductive WriteDisposition
  | WRITE_APPEND
  | WRITE_TRUNCATE
  | WRITE_EMPTY
  deriving Repr, DecidableEq

/-- `bigquery.LoadJobConfig(...)` as the scripts build it. -/
structure LoadJobConfig where
  source_format : SourceFormat
  autodetect : Bool
  write_disposition : WriteDisposition
  deriving Repr, DecidableEq

/-- Calls made against the BigQuery SDK, recorded as a trace.  `jobResult`
is `load_job.result()`, the blocking wait for job completion. -/
inductive BqCall
  | loadTableFromUri (gcsUri : String) (tableId : String) (cfg : LoadJobConfig)
  | jobResult
  deriving Repr, DecidableEq

/-- Split a character list at every occurrence of `c`; always returns at
least one (possibly empty) chunk. -/
def splitOnChar (c : Char) : List Char → List (List Char)
  | [] => [[]]
  | x :: xs =>
      match splitOnChar c xs, decide (x = c) with
      | r, true => [] :: r
      | [], false => [[x]]
      | y :: ys, false => (x :: y) :: ys

/-- `local_file.name`: the final path component. -/
def basename (p : String) : String :=
  match (splitOnChar '/' p.data).getLast? with
  | some cs => ⟨cs⟩
  | none => p

namespace complete_pipeline

/-- The dict built by `fetch_weather` in `scripts/complete_pipeline.py`
(lines 48-70); `scripts/fetch_and_upload.py` lines 45-67 build the
identical dict.  Fields the code fills with `strftime`/`isoformat` strings
are `String`; fields copied straight out of the provider JSON stay `Json`. -/
structure WeatherRecord where
  city : String
  country : Json
  timestamp : String
  date : String
  time : String
  temperature : Json
  feels_like : Json
  temp_min : Json
  temp_max : Json
  humidity : Json
  pressure : Json
  weather : Json
  weather_main : Json
  wind_speed : Json
  wind_deg : Json
  clouds : Json
  sunrise : String
  sunset : String
  visibility : Json
  coord_lat : Json
  coord_lon : Json

/-- The `requests.get(URL, timeout=10)` call of line 35: the request is
issued with a 10-second timeout. -/
def request (url : String) : HttpRequest :=
  { url := url, timeout := some 10 }

/-- The `weather_data = { ... }` dict literal, lines 48-70, evaluated in
source order.  `t0`, `t1`, `t2` are the three separate `datetime.utcnow()`
calls made for `timestamp`, `date` and `time`; `tz` is the machine's local
UTC offset in seconds, used by `datetime.fromtimestamp` for
`sunrise`/`sunset`.  Any `KeyError`/`TypeError`/`IndexError` raised by a
subscript propagates out of the literal. -/
def buildRecord (city : String) (data : Json) (t0 t1 t2 : Instant) (tz : Int) :
    Except PyErr WeatherRecord := do
  let country ← (← data.getKey "sys").getKey "country"
  let timestamp := isoformat t0
  let date := fmtDate t1
  let time := fmtTime t2
  let temperature ← (← data.getKey "main").getKey "temp"
  let feels_like ← (← data.getKey "main").getKey "feels_like"
  let temp_min ← (← data.getKey "main").getKey "temp_min"
  let temp_max ← (← data.getKey "main").getKey "temp_max"
  let humidity ← (← data.getKey "main").getKey "humidity"
  let pressure ← (← data.getKey "main").getKey "pressure"
  let weather ← (← (← data.getKey "weather").getIdx 0).getKey "description"
  let weather_main ← (← (← data.getKey "weather").getIdx 0).getKey "main"
  let wind_speed ← (← data.getD "wind" (.obj [])).getD "speed" (.num 0)
  let wind_deg ← (← data.getD "wind" (.obj [])).getD "deg" (.num 0)
  let clouds ← (← data.getD "clouds" (.obj [])).getD "all" (.num 0)
  let sunrise := isoformat (← fromtimestamp (← (← data.getKey "sys").getKey "sunrise") tz)
  let sunset := isoformat (← fromtimestamp (← (← data.getKey "sys").getKey "sunset") tz)
  let visibility ← data.getD "visibility" (.num 0)
  let coord_lat ← (← data.getKey "coord").getKey "lat"
  let coord_lon ← (← data.getKey "coord").getKey "lon"
  return { city, country, timestamp, date, time, temperature, feels_like,
           temp_min, temp_max, humidity, pressure, weather, weather_main,
           wind_speed, wind_deg, clouds, sunrise, sunset, visibility,
           coord_lat, coord_lon }

/-- `fetch_weather` of `scripts/complete_pipeline.py`, lines 31-84
(identical to `scripts/fetch_and_upload.py`, lines 28-81).  The whole body
sits in `try: ... except requests.exceptions.RequestException: return None
except Exception: return None`, so every raised exception collapses to
`None`; a non-200 status and a missing `main` section return `None`
explicitly. -/
def fetch_weather (outcome : HttpOutcome) (t0 t1 t2 : Instant) (tz : Int)
    (city : String) : Option WeatherRecord :=
  let body : Except PyErr (Option WeatherRecord) := do
    match outcome with
    | .requestException => .error .requestException
    | .resp r =>
      if r.status_code ≠ 200 then
        return none
      let data ← r.json
      if !(← data.containsKey "main") then
        return none
      let w ← buildRecord city data t0 t1 t2 tz
      return some w
  match body with
  | .ok v => v
  | .error _ => none

/-- `save_locally`, lines 86-97: the returned artifact path.  The filename
stamp comes from a fresh `datetime.utcnow()` call (`tSave`), not from the
record; the record itself is only the file's content. -/
def save_locally (dataDir : String) (tSave : Instant) : String :=
  dataDir ++ "/weather_" ++ fmtCompact tSave ++ ".json"

/-- `upload_to_gcs`, lines 99-121.  Returns the function's Python return
value (`gs://...` locator on success, `None` both when GCP is unconfigured
and when the `try` block raises) together with the trace of storage-SDK
calls it made.  The destination date comes from a fresh
`datetime.utcnow()` call (`tUpload`), line 110.  `uploadOk = false` models
an exception raised inside the `try` block (caught, line 119). -/
def upload_to_gcs (env : GcpEnv) (localFile : String) (tUpload : Instant)
    (uploadOk : Bool) : Option String × List StorageCall :=
  if !(truthy env.project) || !(truthy env.bucket) then
    (none, [])
  else
    let project := env.project.getD ""
    let bucket := env.bucket.getD ""
    let blob_path := "raw/" ++ toString tUpload.year ++ "/" ++
      pad2 tUpload.month ++ "/" ++ pad2 tUpload.day ++ "/" ++ basename localFile
    let calls := [StorageCall.clientInit project, .bucketBind bucket,
                  .blobUpload blob_path localFile]
    if uploadOk then
      (some ("gs://" ++ bucket ++ "/" ++ blob_path), calls)
    else
      (none, calls)

/-- `load_to_bigquery`, lines 123-153: the trace of BigQuery-SDK calls.
With a falsy URI the function returns before touching the client; otherwise
it submits a load job with newline-delimited-JSON format, autodetection
off and append disposition, then calls `load_job.result()`.  Errors in the
`try` block are caught and only printed. -/
def load_to_bigquery (project dataset : String) (gcsUri : Option String) :
    List BqCall :=
  match gcsUri with
  | none => []
  | some uri =>
    if uri = "" then []
    else
      let table_id := project ++ "." ++ dataset ++ "." ++ "weather_raw"
      let job_config : LoadJobConfig :=
        { source_format := .NEWLINE_DELIMITED_JSON
          autodetect := false
          write_disposition := .WRITE_APPEND }
      [BqCall.loadTableFromUri uri table_id job_config, .jobResult]

/-- Everything `main` (lines 154-178) needs from the outside world: the
HTTP outcome, the clock values of the five `datetime.utcnow()` calls the
run can make, the local timezone, the GCP configuration, and whether the
filesystem write and the storage upload succeed. -/
structure RunEnv where
  city : String
  dataDir : String
  dataset : String
  outcome : HttpOutcome
  t0 : Instant
  t1 : Instant
  t2 : Instant
  tSave : Instant
  tUpload : Instant
  tz : Int
  gcp : GcpEnv
  saveOk : Bool
  uploadOk : Bool

/-- What a completed run produced. -/
structure RunResult where
  record : Option WeatherRecord
  savedFile : Option String
  gcsUri : Option String
  storageCalls : List StorageCall
  bqCalls : List BqCall

/-- `main`, lines 154-178.  A failed fetch short-circuits the run (still a
normal return).  A filesystem error in `save_locally` is uncaught and
propagates (`saveOk = false`).  The BigQuery load runs only under
`if gcs_uri:`. -/
def main (env : RunEnv) : Except PyErr RunResult :=
  match fetch_weather env.outcome env.t0 env.t1 env.t2 env.tz env.city with
  | none => .ok { record := none, savedFile := none, gcsUri := none,
                  storageCalls := [], bqCalls := [] }
  | some w =>
    if !env.saveOk then .error .osError
    else
      match upload_to_gcs env.gcp (save_locally env.dataDir env.tSave)
          env.tUpload env.uploadOk with
      | (gcsUri, storageCalls) =>
        .ok { record := some w,
              savedFile := some (save_locally env.dataDir env.tSave),
              gcsUri, storageCalls,
              bqCalls :=
                if truthy gcsUri then
                  load_to_bigquery (env.gcp.project.getD "") env.dataset gcsUri
                else [] }

/-- BigQuery calls made by a run, also when the run raised part-way (a
raise before the load stage means no load was attempted). -/
def bqCallsOf : Except PyErr RunResult → List BqCall
  | .ok r => r.bqCalls
  | .error _ => []

end complete_pipeline

namespace fetch_weather_script

/-- The `requests.get(URL)` call of `scripts/fetch_weather.py` line 17: no
`timeout` argument is passed. -/
def request (url : String) : HttpRequest :=
  { url := url, timeout := none }

/-- The dict built by `scripts/fetch_weather.py`, lines 32-39. -/
structure SimpleRecord where
  city : String
  timestamp : String
  temperature : Json
  humidity : Json
  pressure : Json
  weather : Json

/-- `fetch_weather` of `scripts/fetch_weather.py`, lines 16-50.  There is
no `try/except`: a transport failure of `requests.get`, a body that fails
to parse as JSON (`response.json()` runs before the status check), and any
`KeyError` while building the dict all propagate to the caller.  `t0` is
the `datetime.utcnow()` call for `timestamp` (line 34) and `tFile` the one
for the filename (line 45).  On success the function writes one file and
returns the record together with the file's path; on the printed error
paths it returns `None` having written nothing. -/
def fetch_weather (outcome : HttpOutcome) (t0 tFile : Instant)
    (city dataDir : String) : Except PyErr (Option (SimpleRecord × String)) := do
  match outcome with
  | .requestException => .error .requestException
  | .resp r =>
    let data ← r.json
    if r.status_code ≠ 200 then
      return none
    if !(← data.containsKey "main") then
      return none
    let temperature ← (← data.getKey "main").getKey "temp"
    let humidity ← (← data.getKey "main").getKey "humidity"
    let pressure ← (← data.getKey "main").getKey "pressure"
    let weather ← (← (← data.getKey "weather").getIdx 0).getKey "description"
    let filename := dataDir ++ "/weather_" ++ fmtCompact tFile ++ ".json"
    return some ({ city, timestamp := isoformat t0, temperature, humidity,
                   pressure, weather }, filename)

end fetch_weather_script

namespace load_to_bigquery_script

/-- A BigQuery table's metadata as `create_table` configures it:
the column schema (name, type, mode) and the time-partitioning field. -/
structure TableSpec where
  schema : List (String × String × String)
  partitionType : String
  partitionField : String
  deriving Repr, DecidableEq

/-- The backend state the script manipulates: which datasets and tables
exist, by fully-qualified id. -/
structure BQState where
  datasets : List String
  tables : List (String × TableSpec)

/-- `client.get_dataset(dataset_id)`: raises `NotFound` when the dataset
does not exist. -/
def get_dataset (s : BQState) (datasetId : String) : Except PyErr Unit :=
  if datasetId ∈ s.datasets then .ok () else .error .notFound

/-- `client.create_dataset(...)` against the backend: raises `Conflict`
when the dataset already exists, otherwise records it. -/
def backendCreateDataset (s : BQState) (datasetId : String) :
    BQState × Except PyErr Unit :=
  if datasetId ∈ s.datasets then (s, .error .conflict)
  else ({ s with datasets := s.datasets ++ [datasetId] }, .ok ())

/-- `client.get_table(table_id)`: raises `NotFound` when absent. -/
def get_table (s : BQState) (tableId : String) : Except PyErr Unit :=
  if s.tables.any (fun t => t.1 = tableId) then .ok () else .error .notFound

/-- `client.create_table(table)` against the backend: raises `Conflict`
when the table already exists, otherwise records it with its spec. -/
def backendCreateTable (s : BQState) (tableId : String) (spec : TableSpec) :
    BQState × Except PyErr Unit :=
  if s.tables.any (fun t => t.1 = tableId) then (s, .error .conflict)
  else ({ s with tables := s.tables ++ [(tableId, spec)] }, .ok ())

/-- `create_dataset` of `scripts/load_to_bigquery.py`, lines 21-37:
`try: client.get_dataset(...); print(already exists) except Exception:
client.create_dataset(...)`.  Existence is success (the first branch just
prints); only when the lookup raises does the script create the dataset
(location `"EU"`, a fixed description), and an error from that create is
uncaught. -/
def create_dataset (project dataset : String) (s : BQState) :
    BQState × Except PyErr Unit :=
  let dataset_id := project ++ "." ++ dataset
  match get_dataset s dataset_id with
  | .ok _ => (s, .ok ())
  | .error _ => backendCreateDataset s dataset_id

/-- The 21-column schema of lines 54-76, in source order. -/
def weatherSchema : List (String × String × String) :=
  [("city", "STRING", "REQUIRED"),
   ("country", "STRING", "REQUIRED"),
   ("timestamp", "TIMESTAMP", "REQUIRED"),
   ("date", "DATE", "REQUIRED"),
   ("time", "TIME", "REQUIRED"),
   ("temperature", "FLOAT", "REQUIRED"),
   ("feels_like", "FLOAT", "NULLABLE"),
   ("temp_min", "FLOAT", "NULLABLE"),
   ("temp_max", "FLOAT", "NULLABLE"),
   ("humidity", "INTEGER", "REQUIRED"),
   ("pressure", "INTEGER", "REQUIRED"),
   ("weather", "STRING", "REQUIRED"),
   ("weather_main", "STRING", "REQUIRED"),
   ("wind_speed", "FLOAT", "NULLABLE"),
   ("wind_deg", "INTEGER", "NULLABLE"),
   ("clouds", "INTEGER", "NULLABLE"),
   ("sunrise", "TIMESTAMP", "NULLABLE"),
   ("sunset", "TIMESTAMP", "NULLABLE"),
   ("visibility", "INTEGER", "NULLABLE"),
   ("coord_lat", "FLOAT", "NULLABLE"),
   ("coord_lon", "FLOAT", "NULLABLE")]

/-- The `bigquery.Table(...)` value of lines 78-85: the fixed schema and
day partitioning on `timestamp`. -/
def weatherTableSpec : TableSpec :=
  { schema := weatherSchema, partitionType := "DAY", partitionField := "timestamp" }

/-- `create_table`, lines 39-88: `try: client.get_table(...); print; return
except Exception: pass`, then create the table with the fixed schema and
day partitioning.  Existence is an early successful return; an error from
the create call itself is uncaught. -/
def create_table (project dataset : String) (s : BQState) :
    BQState × Except PyErr Unit :=
  let table_id := project ++ "." ++ dataset ++ "." ++ "weather_raw"
  match get_table s table_id with
  | .ok _ => (s, .ok ())
  | .error _ => backendCreateTable s table_id weatherTableSpec

/-- `load_from_gcs_to_bigquery`, lines 90-116: with `gcs_uri=None` the
wildcard over every partition is used; the job is submitted with
newline-delimited-JSON format, autodetection off and append disposition,
and `load_job.result()` blocks until it completes. -/
def load_from_gcs_to_bigquery (project dataset bucket : String)
    (gcsUri : Option String) : List BqCall :=
  let table_id := project ++ "." ++ dataset ++ "." ++ "weather_raw"
  let uri := match gcsUri with
    | none => "gs://" ++ bucket ++ "/raw/*/*/*/*.json"
    | some u => u
  let job_config : LoadJobConfig :=
    { source_format := .NEWLINE_DELIMITED_JSON
      autodetect := false
      write_disposition := .WRITE_APPEND }
  [BqCall.loadTableFromUri uri table_id job_config, .jobResult]

end load_to_bigquery_script

/-! Concrete test fixtures.  `sampleBody` is the valid provider response of
the spec's end-to-end scenario (§8): all required sections present. -/

/-- A well-formed provider response: `coord`, `weather`, `main` and `sys`
all present, `sys.sunrise = 1700000000`, `sys.sunset = 1700030000`. -/
def sampleBody : Json :=
  .obj [("coord", .obj [("lat", .num 48), ("lon", .num 2)]),
        ("weather", .arr [.obj [("description", .str "clear sky"),
                                ("main", .str "Clear")]]),
        ("main", .obj [("temp", .num 15), ("feels_like", .num 14),
                       ("temp_min", .num 14), ("temp_max", .num 16),
                       ("humidity", .num 60), ("pressure", .num 1013)]),
        ("sys", .obj [("country", .str "FR"), ("sunrise", .num 1700000000),
                      ("sunset", .num 1700030000)])]

/-- 2024-06-30T23:59:59.999999 UTC: the last microsecond of June 2024. -/
def tickBefore : Instant := ⟨1719791999, 999999⟩

/-- 2024-06-30T23:59:59 UTC, microsecond 0. -/
def lastSecond : Instant := ⟨1719791999, 0⟩

/-- 2024-07-01T00:00:00 UTC: one clock tick later, across a day boundary. -/
def tickAfter : Instant := ⟨1719792000, 0⟩

/-- Successful `Except` bind decomposes into a successful first step and a
successful continuation. -/
theorem except_bind_ok {ε α β : Type} (x : Except ε α) (f : α → Except ε β) (b : β) :
    (x >>= f = Except.ok b) ↔ ∃ a, x = Except.ok a ∧ f a = Except.ok b := by
  cases x <;> simp [Bind.bind, Except.bind]

/-- If the record literal evaluated to a record (no exception), then every
required section was present and every required field lookup inside it
succeeded: no partially populated record can come out of `buildRecord`. -/
theorem buildRecord_ok_requires (city : String) (data : Json) (t0 t1 t2 : Instant)
    (tz : Int) (w : complete_pipeline.WeatherRecord)
    (h : complete_pipeline.buildRecord city data t0 t1 t2 tz = .ok w) :
    (∃ sy, data.getKey "sys" = .ok sy ∧ (∃ v, sy.getKey "country" = .ok v) ∧
      (∃ v, sy.getKey "sunrise" = .ok v) ∧ (∃ v, sy.getKey "sunset" = .ok v)) ∧
    (∃ m, data.getKey "main" = .ok m ∧ (∃ v, m.getKey "temp" = .ok v) ∧
      (∃ v, m.getKey "feels_like" = .ok v) ∧ (∃ v, m.getKey "temp_min" = .ok v) ∧
      (∃ v, m.getKey "temp_max" = .ok v) ∧ (∃ v, m.getKey "humidity" = .ok v) ∧
      (∃ v, m.getKey "pressure" = .ok v)) ∧
    (∃ wz, data.getKey "weather" = .ok wz ∧ ∃ w0, wz.getIdx 0 = .ok w0 ∧
      (∃ v, w0.getKey "description" = .ok v) ∧ (∃ v, w0.getKey "main" = .ok v)) ∧
    (∃ cd, data.getKey "coord" = .ok cd ∧ (∃ v, cd.getKey "lat" = .ok v) ∧
      (∃ v, cd.getKey "lon" = .ok v)) := by
  simp only [complete_pipeline.buildRecord, except_bind_ok] at h
  obtain ⟨s, hs, c, hc, m1, hm1, te, hte, m2, hm2, fl, hfl, m3, hm3, tn, htn,
    m4, hm4, tx, htx, m5, hm5, hum, hhum, m6, hm6, pr, hpr, wa, hwa, w0, hw0,
    de, hde, wa2, hwa2, w02, hw02, wmn, hwmn, _, _, _, _, _, _, _, _, _, _, _, _,
    sy2, hsy2, sr, hsr, _, _, sy3, hsy3, ss, hss, _, _, _, _,
    co, hco, la, hla, co2, hco2, lo, hlo, _⟩ := h
  rw [hs] at hsy2 hsy3
  injection hsy2 with e2
  injection hsy3 with e3
  subst e2
  subst e3
  rw [hm1] at hm2 hm3 hm4 hm5 hm6
  injection hm2 with e2
  injection hm3 with e3
  injection hm4 with e4
  injection hm5 with e5
  injection hm6 with e6
  subst e2
  subst e3
  subst e4
  subst e5
  subst e6
  rw [hwa] at hwa2
  injection hwa2 with e2
  subst e2
  rw [hw0] at hw02
  injection hw02 with e2
  subst e2
  rw [hco] at hco2
  injection hco2 with e2
  subst e2
  exact ⟨⟨s, hs, ⟨c, hc⟩, ⟨sr, hsr⟩, ⟨ss, hss⟩⟩,
         ⟨m1, hm1, ⟨te, hte⟩, ⟨fl, hfl⟩, ⟨tn, htn⟩, ⟨tx, htx⟩, ⟨hum, hhum⟩, ⟨pr, hpr⟩⟩,
         ⟨wa, hwa, w0, hw0, ⟨de, hde⟩, ⟨wmn, hwmn⟩⟩,
         ⟨co, hco, ⟨la, hla⟩, ⟨lo, hlo⟩⟩⟩

/-- Evaluation of the full-pipeline Fetcher on a 200 response with a parsed
body: `None` unless `main` is present and the whole record literal
evaluates, in which case the record is returned. -/
theorem fetch200_eq (data : Json) (t0 t1 t2 : Instant) (tz : Int) (city : String) :
    complete_pipeline.fetch_weather (.resp ⟨200, some data⟩) t0 t1 t2 tz city =
      (match data.containsKey "main" with
       | .error _ => none
       | .ok false => none
       | .ok true =>
         match complete_pipeline.buildRecord city data t0 t1 t2 tz with
         | .error _ => none
         | .ok w => some w) := by
  cases hc : data.containsKey "main" with
  | error e =>
      simp [complete_pipeline.fetch_weather, hc, Bind.bind, Except.bind,
        HttpResponse.json, pure, Except.pure]
  | ok b =>
      cases b with
      | false =>
          simp [complete_pipeline.fetch_weather, hc, Bind.bind, Except.bind,
            HttpResponse.json, pure, Except.pure]
      | true =>
          cases hb : complete_pipeline.buildRecord city data t0 t1 t2 tz with
          | error e =>
              simp [complete_pipeline.fetch_weather, hc, hb, Bind.bind,
                Except.bind, HttpResponse.json, pure, Except.pure]
          | ok w =>
              simp [complete_pipeline.fetch_weather, hc, hb, Bind.bind,
                Except.bind, HttpResponse.json, pure, Except.pure]

/-- C1: the claim says `date`/`time` are derived from the same UTC instant
as `timestamp`.  In the code (complete_pipeline.py lines 51-53,
fetch_and_upload.py lines 48-50) each of the three fields calls
`datetime.utcnow()` itself.  When the clock ticks across midnight between
the first and second call, the record carries
`timestamp = 2024-06-30T23:59:59.999999` but `date = 2024-07-01`,
`time = 00:00:00`: the `date`+`time` concatenation denotes a different
instant than `timestamp` (whose own UTC calendar date is 2024-06-30). -/
theorem C1_date_time_sampled_independently :
    (complete_pipeline.fetch_weather (.resp ⟨200, some sampleBody⟩)
        tickBefore tickAfter tickAfter 0 "Paris").map
        (fun w => (w.timestamp, w.date, w.time))
      = some ("2024-06-30T23:59:59.999999", "2024-07-01", "00:00:00") ∧
    fmtDate tickBefore = "2024-06-30" ∧
    "2024-07-01" ≠ "2024-06-30" := by
  refine ⟨rfl, rfl, ?_⟩
  decide

/-- C3: the claim says the destination path's year/month/day come from the
record's `timestamp`.  The code (complete_pipeline.py line 110, same in
fetch_and_upload.py) calls `datetime.utcnow()` afresh inside
`upload_to_gcs`.  With a record fetched at 2024-06-30T23:59:59 and the
upload running at 2024-07-01T00:00:00, the object lands under
`raw/2024/07/01/` although the timestamp's UTC date is 2024-06-30. -/
theorem C3_blob_path_uses_upload_clock :
    (complete_pipeline.fetch_weather (.resp ⟨200, some sampleBody⟩)
        lastSecond lastSecond lastSecond 0 "Paris").map (fun w => w.timestamp)
      = some "2024-06-30T23:59:59" ∧
    (complete_pipeline.upload_to_gcs ⟨some "proj", some "bucket"⟩
        (complete_pipeline.save_locally "data" lastSecond) tickAfter true).1
      = some "gs://bucket/raw/2024/07/01/weather_20240630_235959.json" ∧
    fmtDate lastSecond = "2024-06-30" := by
  refine ⟨rfl, by decide, rfl⟩

/-- C4: the claim says `sunrise`/`sunset` are UTC instants derived from the
provider epoch seconds.  The code (complete_pipeline.py lines 65-66,
fetch_and_upload.py lines 62-63) uses `datetime.fromtimestamp`, which
converts to the machine's local timezone.  On a machine at UTC+02:00,
`sys.sunrise = 1700000000` is stored as `2023-11-15T00:13:20`, while the
UTC instant of that epoch second is `2023-11-14T22:13:20`. -/
theorem C4_sunrise_sunset_local_time :
    (complete_pipeline.fetch_weather (.resp ⟨200, some sampleBody⟩)
        lastSecond lastSecond lastSecond 7200 "Paris").map
        (fun w => (w.sunrise, w.sunset))
      = some ("2023-11-15T00:13:20", "2023-11-15T08:33:20") ∧
    isoformat ⟨1700000000, 0⟩ = "2023-11-14T22:13:20" ∧
    "2023-11-15T00:13:20" ≠ "2023-11-14T22:13:20" := by
  refine ⟨rfl, rfl, ?_⟩
  decide

/-- C6: the claim says the filename's encoded second is the instant stored
in the record's `timestamp`.  The code (complete_pipeline.py line 91,
fetch_and_upload.py line 88) stamps the filename with a fresh
`datetime.utcnow()` taken at save time.  A record fetched at
2024-06-30T23:59:59 but saved at 2024-07-01T00:00:00 is written to
`weather_20240701_000000.json`, which encodes a different second than the
record's `timestamp`. -/
theorem C6_filename_uses_save_clock :
    (complete_pipeline.fetch_weather (.resp ⟨200, some sampleBody⟩)
        lastSecond lastSecond lastSecond 0 "Paris").map (fun w => w.timestamp)
      = some "2024-06-30T23:59:59" ∧
    complete_pipeline.save_locally "data" tickAfter
      = "data/weather_20240701_000000.json" ∧
    fmtCompact lastSecond = "20240630_235959" ∧
    "20240701_000000" ≠ "20240630_235959" := by
  refine ⟨rfl, rfl, rfl, ?_⟩
  decide

/-- C2 counterexample: the minimal script's Fetcher (fetch_weather.py line
17) issues its request with no timeout at all, and a network-transport
failure propagates as a raised `RequestException` instead of a "no record"
return. -/
theorem C2_cex_minimal_fetcher_raises :
    (fetch_weather_script.request "https://api").timeout = none ∧
    fetch_weather_script.fetch_weather .requestException ⟨0, 0⟩ ⟨0, 0⟩
        "Paris" "data" = .error .requestException := by
  exact ⟨rfl, rfl⟩

/-- C2 amended: the full-pipeline Fetchers (complete_pipeline.py lines
31-84, fetch_and_upload.py lines 28-81) issue their request with a
10-second timeout and return "no record" (`None`) on transport failure, on
any non-200 status, on an unparseable body, and on a body without the
`main` section; the minimal script (fetch_weather.py) passes no timeout and
lets a transport failure escape as an exception. -/
theorem C2_bounded_timeout_and_no_raise (url city dataDir : String)
    (t0 t1 t2 : Instant) (tz : Int) (r : HttpResponse) (data : Json) :
    (complete_pipeline.request url).timeout = some 10 ∧
    complete_pipeline.fetch_weather .requestException t0 t1 t2 tz city = none ∧
    (r.status_code ≠ 200 →
      complete_pipeline.fetch_weather (.resp r) t0 t1 t2 tz city = none) ∧
    (r.body = none →
      complete_pipeline.fetch_weather (.resp r) t0 t1 t2 tz city = none) ∧
    (data.containsKey "main" = .ok false →
      complete_pipeline.fetch_weather (.resp ⟨200, some data⟩) t0 t1 t2 tz city
        = none) ∧
    (fetch_weather_script.request url).timeout = none ∧
    fetch_weather_script.fetch_weather .requestException t0 t1 city dataDir
      = .error .requestException := by
  refine ⟨rfl, rfl, ?_, ?_, ?_, rfl, rfl⟩
  · intro h
    simp [complete_pipeline.fetch_weather, h, pure, Except.pure]
  · intro h
    by_cases hs : r.status_code = 200
    · simp [complete_pipeline.fetch_weather, hs, HttpResponse.json, h,
        Bind.bind, Except.bind, pure, Except.pure]
    · simp [complete_pipeline.fetch_weather, hs, pure, Except.pure]
  · intro h
    simp [complete_pipeline.fetch_weather, HttpResponse.json, h,
      Bind.bind, Except.bind, pure, Except.pure]

/-- C2 witness: the amended statement applied at a concrete 404 response
with an unparseable body. -/
theorem C2_wit :
    complete_pipeline.fetch_weather (.resp ⟨404, none⟩) ⟨0, 0⟩ ⟨0, 0⟩ ⟨0, 0⟩
        0 "Paris" = none ∧
    (complete_pipeline.request "https://api").timeout = some 10 := by
  exact ⟨(C2_bounded_timeout_and_no_raise "https://api" "Paris" "data"
            ⟨0, 0⟩ ⟨0, 0⟩ ⟨0, 0⟩ 0 ⟨404, none⟩ .null).2.2.1 (by decide),
         (C2_bounded_timeout_and_no_raise "https://api" "Paris" "data"
            ⟨0, 0⟩ ⟨0, 0⟩ ⟨0, 0⟩ 0 ⟨404, none⟩ .null).1⟩

/-- C5 counterexample: in the minimal script (fetch_weather.py), a 200
response whose body has the required `main` section but no `weather`
section makes the Fetcher raise `KeyError` while building the dict — it
does not yield the "no record" outcome the claim promises for every
variant (though it still constructs no record and writes no file). -/
theorem C5_cex_minimal_fetcher_raises_on_missing_weather :
    fetch_weather_script.fetch_weather
        (.resp ⟨200, some (.obj [("main", .obj [("temp", .num 15),
            ("humidity", .num 60), ("pressure", .num 1013)])])⟩)
        ⟨0, 0⟩ ⟨0, 0⟩ "Paris" "data" = .error (.keyError "weather") := by
  rfl

/-- C5 amended: in the full-pipeline Fetchers every response missing a
required section (`main`, `sys`, `weather`, `coord`) or a required field
inside one (`sys.country`, `main.temp`, `main.humidity`, `main.pressure`,
`weather[0].description`, ... — any exception while building the record)
yields `None`; no partially-populated record is constructed (see
`buildRecord_ok_requires`), and when the fetch yields `None` the run
creates no local artifact.  In the minimal script a missing `main` also
yields `None`, but a missing `weather` section raises a `KeyError`
(still constructing no record and creating no artifact). -/
theorem C5_missing_required_yields_no_record (t0 t1 t2 : Instant) (tz : Int)
    (city : String) (data sy m wz : Json) (e : PyErr)
    (env : complete_pipeline.RunEnv) :
    (data.containsKey "main" = .ok false →
      complete_pipeline.fetch_weather (.resp ⟨200, some data⟩) t0 t1 t2 tz city = none) ∧
    (data.containsKey "main" = .error e →
      complete_pipeline.fetch_weather (.resp ⟨200, some data⟩) t0 t1 t2 tz city = none) ∧
    (data.getKey "sys" = .error e →
      complete_pipeline.fetch_weather (.resp ⟨200, some data⟩) t0 t1 t2 tz city = none) ∧
    (data.getKey "weather" = .error e →
      complete_pipeline.fetch_weather (.resp ⟨200, some data⟩) t0 t1 t2 tz city = none) ∧
    (data.getKey "coord" = .error e →
      complete_pipeline.fetch_weather (.resp ⟨200, some data⟩) t0 t1 t2 tz city = none) ∧
    (∀ e2 : PyErr, complete_pipeline.buildRecord city data t0 t1 t2 tz = .error e2 →
      complete_pipeline.fetch_weather (.resp ⟨200, some data⟩) t0 t1 t2 tz city = none) ∧
    (data.getKey "sys" = .ok sy → sy.getKey "country" = .error e →
      complete_pipeline.fetch_weather (.resp ⟨200, some data⟩) t0 t1 t2 tz city = none) ∧
    (data.getKey "main" = .ok m → m.getKey "temp" = .error e →
      complete_pipeline.fetch_weather (.resp ⟨200, some data⟩) t0 t1 t2 tz city = none) ∧
    (data.getKey "main" = .ok m → m.getKey "humidity" = .error e →
      complete_pipeline.fetch_weather (.resp ⟨200, some data⟩) t0 t1 t2 tz city = none) ∧
    (data.getKey "main" = .ok m → m.getKey "pressure" = .error e →
      complete_pipeline.fetch_weather (.resp ⟨200, some data⟩) t0 t1 t2 tz city = none) ∧
    (data.getKey "weather" = .ok wz → ∀ w0j : Json, wz.getIdx 0 = .ok w0j →
      w0j.getKey "description" = .error e →
      complete_pipeline.fetch_weather (.resp ⟨200, some data⟩) t0 t1 t2 tz city = none) ∧
    (complete_pipeline.fetch_weather env.outcome env.t0 env.t1 env.t2 env.tz env.city = none →
      complete_pipeline.main env = .ok ⟨none, none, none, [], []⟩) ∧
    (fetch_weather_script.fetch_weather
        (.resp ⟨200, some (.obj [("main", .obj [("temp", .num 15),
            ("humidity", .num 60), ("pressure", .num 1013)])])⟩)
        t0 t1 city "data" = .error (.keyError "weather")) := by
  have hgen : ∀ e2 : PyErr,
      complete_pipeline.buildRecord city data t0 t1 t2 tz = .error e2 →
      complete_pipeline.fetch_weather (.resp ⟨200, some data⟩) t0 t1 t2 tz city = none := by
    intro e2 h
    rw [fetch200_eq]
    cases hc : data.containsKey "main" with
    | error e3 => rfl
    | ok b =>
        cases b with
        | false => rfl
        | true => rw [h]
  have hsec : ∀ k : String, k = "sys" ∨ k = "weather" ∨ k = "coord" →
      data.getKey k = .error e →
      complete_pipeline.fetch_weather (.resp ⟨200, some data⟩) t0 t1 t2 tz city = none := by
    intro k hk h
    cases hb : complete_pipeline.buildRecord city data t0 t1 t2 tz with
    | error e2 => exact hgen e2 hb
    | ok w =>
        exfalso
        obtain ⟨⟨s1, hs1, -⟩, ⟨m1, hm1, -⟩, ⟨w1, hw1, -⟩, ⟨c1, hc1, -⟩⟩ :=
          buildRecord_ok_requires city data t0 t1 t2 tz w hb
        rcases hk with hk | hk | hk <;> subst hk
        · rw [h] at hs1; cases hs1
        · rw [h] at hw1; cases hw1
        · rw [h] at hc1; cases hc1
  refine ⟨?_, ?_, hsec "sys" (.inl rfl), hsec "weather" (.inr (.inl rfl)),
          hsec "coord" (.inr (.inr rfl)), hgen, ?_, ?_, ?_, ?_, ?_, ?_, rfl⟩
  · intro h
    rw [fetch200_eq, h]
  · intro h
    rw [fetch200_eq, h]
  · intro hp hf
    cases hb : complete_pipeline.buildRecord city data t0 t1 t2 tz with
    | error e2 => exact hgen e2 hb
    | ok w =>
        exfalso
        obtain ⟨⟨s1, hs1, ⟨v, hv⟩, -⟩, -, -, -⟩ :=
          buildRecord_ok_requires city data t0 t1 t2 tz w hb
        rw [hp] at hs1
        injection hs1 with h1
        subst h1
        rw [hf] at hv
        cases hv
  · intro hp hf
    cases hb : complete_pipeline.buildRecord city data t0 t1 t2 tz with
    | error e2 => exact hgen e2 hb
    | ok w =>
        exfalso
        obtain ⟨-, ⟨m1, hm1, ⟨v, hv⟩, -⟩, -, -⟩ :=
          buildRecord_ok_requires city data t0 t1 t2 tz w hb
        rw [hp] at hm1
        injection hm1 with h1
        subst h1
        rw [hf] at hv
        cases hv
  · intro hp hf
    cases hb : complete_pipeline.buildRecord city data t0 t1 t2 tz with
    | error e2 => exact hgen e2 hb
    | ok w =>
        exfalso
        obtain ⟨-, ⟨m1, hm1, -, -, -, -, ⟨v, hv⟩, -⟩, -, -⟩ :=
          buildRecord_ok_requires city data t0 t1 t2 tz w hb
        rw [hp] at hm1
        injection hm1 with h1
        subst h1
        rw [hf] at hv
        cases hv
  · intro hp hf
    cases hb : complete_pipeline.buildRecord city data t0 t1 t2 tz with
    | error e2 => exact hgen e2 hb
    | ok w =>
        exfalso
        obtain ⟨-, ⟨m1, hm1, -, -, -, -, -, v, hv⟩, -, -⟩ :=
          buildRecord_ok_requires city data t0 t1 t2 tz w hb
        rw [hp] at hm1
        injection hm1 with h1
        subst h1
        rw [hf] at hv
        cases hv
  · intro hp w0j hidx hf
    cases hb : complete_pipeline.buildRecord city data t0 t1 t2 tz with
    | error e2 => exact hgen e2 hb
    | ok w =>
        exfalso
        obtain ⟨-, -, ⟨w1, hw1, w0, hw0, ⟨v, hv⟩, -⟩, -⟩ :=
          buildRecord_ok_requires city data t0 t1 t2 tz w hb
        rw [hp] at hw1
        injection hw1 with h1
        subst h1
        rw [hidx] at hw0
        injection hw0 with h1
        subst h1
        rw [hf] at hv
        cases hv
  · intro h
    unfold complete_pipeline.main
    rw [h]

/-- C5 witness: the amended statement applied at a concrete response with
no `main` section at all, and at one whose `main` section lacks the
required `temp` field. -/
theorem C5_wit :
    complete_pipeline.fetch_weather (.resp ⟨200, some (.obj [("weather", .arr [])])⟩)
      ⟨0, 0⟩ ⟨0, 0⟩ ⟨0, 0⟩ 0 "Paris" = none ∧
    complete_pipeline.fetch_weather
      (.resp ⟨200, some (.obj [("main", .obj [("humidity", .num 60)])])⟩)
      ⟨0, 0⟩ ⟨0, 0⟩ ⟨0, 0⟩ 0 "Paris" = none := by
  refine ⟨?_, ?_⟩
  · exact (C5_missing_required_yields_no_record ⟨0, 0⟩ ⟨0, 0⟩ ⟨0, 0⟩ 0 "Paris"
      (.obj [("weather", .arr [])]) .null .null .null .typeError
      ⟨"Paris", "data", "weather_data", .requestException, ⟨0, 0⟩, ⟨0, 0⟩, ⟨0, 0⟩,
        ⟨0, 0⟩, ⟨0, 0⟩, 0, ⟨none, none⟩, true, true⟩).1 rfl
  · exact (C5_missing_required_yields_no_record ⟨0, 0⟩ ⟨0, 0⟩ ⟨0, 0⟩ 0 "Paris"
      (.obj [("main", .obj [("humidity", .num 60)])]) .null
      (.obj [("humidity", .num 60)]) .null (.keyError "temp")
      ⟨"Paris", "data", "weather_data", .requestException, ⟨0, 0⟩, ⟨0, 0⟩, ⟨0, 0⟩,
        ⟨0, 0⟩, ⟨0, 0⟩, 0, ⟨none, none⟩, true, true⟩).2.2.2.2.2.2.2.1 rfl rfl

/-- A concatenation starting with the `gs://` scheme is never the empty
string, so the locator `upload_to_gcs` returns on success is truthy. -/
theorem gs_prefixed_ne_empty (x y : String) : ("gs://" ++ x ++ "/" ++ y) ≠ "" := by
  intro he
  have h2 := congrArg String.data he
  simp [String.data_append] at h2

/-- If `upload_to_gcs` returned a locator, that locator is a nonempty
string (it starts with `gs://`). -/
theorem upload_some_ne_empty (gcp : GcpEnv) (f : String) (t : Instant)
    (ok : Bool) (u : String)
    (h : (complete_pipeline.upload_to_gcs gcp f t ok).1 = some u) : u ≠ "" := by
  unfold complete_pipeline.upload_to_gcs at h
  split at h
  · simp at h
  · cases ok with
    | false => simp at h
    | true =>
        simp only [Prod.fst] at h
        injection h with h
        subst h
        exact gs_prefixed_ne_empty _ _

/-- C7: with the project id or bucket name unconfigured, the Stage
Uploader makes no storage call and returns `None` (a normal return, not an
exception), and the run it belongs to attempts no BigQuery load. -/
theorem C7_unconfigured_skips_upload_and_load (env : complete_pipeline.RunEnv)
    (f : String) (t : Instant) (ok : Bool)
    (h : truthy env.gcp.project = false ∨ truthy env.gcp.bucket = false) :
    complete_pipeline.upload_to_gcs env.gcp f t ok = (none, []) ∧
    complete_pipeline.bqCallsOf (complete_pipeline.main env) = [] := by
  have hcond : (!truthy env.gcp.project || !truthy env.gcp.bucket) = true := by
    rcases h with h | h <;> simp [h]
  have hup : ∀ f2 t2 ok2, complete_pipeline.upload_to_gcs env.gcp f2 t2 ok2 = (none, []) := by
    intro f2 t2 ok2
    unfold complete_pipeline.upload_to_gcs
    rw [hcond]
    rfl
  refine ⟨hup f t ok, ?_⟩
  unfold complete_pipeline.main
  cases hf : complete_pipeline.fetch_weather env.outcome env.t0 env.t1 env.t2
      env.tz env.city with
  | none => rfl
  | some w =>
      cases hsave : env.saveOk with
      | false => rfl
      | true => simp [hup, truthy, complete_pipeline.bqCallsOf]

/-- C7 witness: a run with no project id configured. -/
theorem C7_wit :
    complete_pipeline.upload_to_gcs ⟨none, some "bucket"⟩ "f" ⟨0, 0⟩ true = (none, []) ∧
    complete_pipeline.bqCallsOf (complete_pipeline.main
      ⟨"Paris", "data", "weather_data", .resp ⟨200, some sampleBody⟩, ⟨0, 0⟩, ⟨0, 0⟩,
        ⟨0, 0⟩, ⟨0, 0⟩, ⟨0, 0⟩, 0, ⟨none, some "bucket"⟩, true, true⟩) = [] := by
  exact C7_unconfigured_skips_upload_and_load
    ⟨"Paris", "data", "weather_data", .resp ⟨200, some sampleBody⟩, ⟨0, 0⟩, ⟨0, 0⟩,
      ⟨0, 0⟩, ⟨0, 0⟩, ⟨0, 0⟩, 0, ⟨none, some "bucket"⟩, true, true⟩
    "f" ⟨0, 0⟩ true (.inl rfl)

/-- C8: dataset-ensure and table-ensure treat existence as success: when
the dataset (resp. table) already exists, the operation returns normally
and leaves the backend unchanged, and running either operation twice in a
row always succeeds on the second call without creating a duplicate (the
second call is a no-op on the state). -/
theorem C8_ensure_idempotent (project dataset : String)
    (s : load_to_bigquery_script.BQState) :
    ((project ++ "." ++ dataset) ∈ s.datasets →
      load_to_bigquery_script.create_dataset project dataset s = (s, .ok ())) ∧
    ((load_to_bigquery_script.create_dataset project dataset
        (load_to_bigquery_script.create_dataset project dataset s).1)
      = ((load_to_bigquery_script.create_dataset project dataset s).1, .ok ())) ∧
    (s.tables.any
        (fun t => t.1 = project ++ "." ++ dataset ++ "." ++ "weather_raw") = true →
      load_to_bigquery_script.create_table project dataset s = (s, .ok ())) ∧
    ((load_to_bigquery_script.create_table project dataset
        (load_to_bigquery_script.create_table project dataset s).1)
      = ((load_to_bigquery_script.create_table project dataset s).1, .ok ())) := by
  refine ⟨?_, ?_, ?_, ?_⟩
  · intro h
    simp [load_to_bigquery_script.create_dataset, load_to_bigquery_script.get_dataset, h]
  · by_cases h : (project ++ "." ++ dataset) ∈ s.datasets
    · simp [load_to_bigquery_script.create_dataset,
        load_to_bigquery_script.get_dataset, h]
    · simp [load_to_bigquery_script.create_dataset,
        load_to_bigquery_script.get_dataset, h,
        load_to_bigquery_script.backendCreateDataset]
  · intro h
    simp [load_to_bigquery_script.create_table, load_to_bigquery_script.get_table, h]
  · by_cases h : s.tables.any
        (fun t => t.1 = project ++ "." ++ dataset ++ "." ++ "weather_raw") = true
    · simp [load_to_bigquery_script.create_table,
        load_to_bigquery_script.get_table, h]
    · simp [load_to_bigquery_script.create_table,
        load_to_bigquery_script.get_table, h,
        load_to_bigquery_script.backendCreateTable]

/-- C8 witness: the idempotence statement applied to a backend that already
holds the dataset and the table. -/
theorem C8_wit :
    load_to_bigquery_script.create_dataset "p" "d"
      ⟨["p.d"], [("p.d.weather_raw", load_to_bigquery_script.weatherTableSpec)]⟩
      = (⟨["p.d"], [("p.d.weather_raw", load_to_bigquery_script.weatherTableSpec)]⟩,
         .ok ()) ∧
    load_to_bigquery_script.create_table "p" "d"
      ⟨["p.d"], [("p.d.weather_raw", load_to_bigquery_script.weatherTableSpec)]⟩
      = (⟨["p.d"], [("p.d.weather_raw", load_to_bigquery_script.weatherTableSpec)]⟩,
         .ok ()) := by
  exact ⟨(C8_ensure_idempotent "p" "d"
            ⟨["p.d"], [("p.d.weather_raw", load_to_bigquery_script.weatherTableSpec)]⟩).1
            (by decide),
         (C8_ensure_idempotent "p" "d"
            ⟨["p.d"], [("p.d.weather_raw", load_to_bigquery_script.weatherTableSpec)]⟩).2.2.1
            (by decide)⟩

/-- C9: every bulk load either script submits carries newline-delimited
JSON format, autodetection off and append disposition (never truncate or
empty-only), and the submit is immediately followed by the blocking
`load_job.result()` wait; the script variant defaults a missing URI to the
all-partitions wildcard. -/
theorem C9_append_only_ndjson_blocking (project dataset bucket uri : String)
    (h : uri ≠ "") :
    complete_pipeline.load_to_bigquery project dataset (some uri) =
      [.loadTableFromUri uri (project ++ "." ++ dataset ++ "." ++ "weather_raw")
         ⟨.NEWLINE_DELIMITED_JSON, false, .WRITE_APPEND⟩, .jobResult] ∧
    load_to_bigquery_script.load_from_gcs_to_bigquery project dataset bucket (some uri) =
      [.loadTableFromUri uri (project ++ "." ++ dataset ++ "." ++ "weather_raw")
         ⟨.NEWLINE_DELIMITED_JSON, false, .WRITE_APPEND⟩, .jobResult] ∧
    load_to_bigquery_script.load_from_gcs_to_bigquery project dataset bucket none =
      [.loadTableFromUri ("gs://" ++ bucket ++ "/raw/*/*/*/*.json")
         (project ++ "." ++ dataset ++ "." ++ "weather_raw")
         ⟨.NEWLINE_DELIMITED_JSON, false, .WRITE_APPEND⟩, .jobResult] := by
  refine ⟨?_, rfl, rfl⟩
  simp [complete_pipeline.load_to_bigquery, h]

/-- C9 witness: the statement applied to a concrete staged-object URI. -/
theorem C9_wit :
    complete_pipeline.load_to_bigquery "p" "weather_data" (some "gs://b/raw/x.json") =
      [.loadTableFromUri "gs://b/raw/x.json" ("p" ++ "." ++ "weather_data" ++ "." ++ "weather_raw")
         ⟨.NEWLINE_DELIMITED_JSON, false, .WRITE_APPEND⟩, .jobResult] := by
  exact (C9_append_only_ndjson_blocking "p" "weather_data" "b" "gs://b/raw/x.json"
    (by decide)).1

/-- C10: in the full pipeline the Stage Uploader returns `None` both when
it skips for missing configuration and when the upload attempt fails, so
its caller cannot tell the two apart from the return value; `main` attempts
the BigQuery load exactly when the uploader returned a locator; and with a
failing upload (after a successful fetch and save) the load is suppressed
while the run still returns normally. -/
theorem C10_skip_and_failure_both_none (gcp : GcpEnv) (f : String)
    (t : Instant) (ok : Bool) (env : complete_pipeline.RunEnv)
    (res : complete_pipeline.RunResult) :
    (truthy gcp.project = false ∨ truthy gcp.bucket = false →
      (complete_pipeline.upload_to_gcs gcp f t ok).1 = none) ∧
    ((complete_pipeline.upload_to_gcs gcp f t false).1 = none) ∧
    (complete_pipeline.main env = .ok res →
      (res.bqCalls ≠ [] ↔ res.gcsUri ≠ none)) ∧
    (env.uploadOk = false → env.saveOk = true →
      complete_pipeline.bqCallsOf (complete_pipeline.main env) = [] ∧
      ∃ r, complete_pipeline.main env = .ok r) := by
  have hfail : ∀ (g : GcpEnv) (f2 : String) (t2 : Instant),
      (complete_pipeline.upload_to_gcs g f2 t2 false).1 = none := by
    intro g f2 t2
    unfold complete_pipeline.upload_to_gcs
    split
    · rfl
    · rfl
  refine ⟨?_, hfail gcp f t, ?_, ?_⟩
  · intro h
    have hcond : (!truthy gcp.project || !truthy gcp.bucket) = true := by
      rcases h with h | h <;> simp [h]
    unfold complete_pipeline.upload_to_gcs
    rw [hcond]
    rfl
  · intro hm
    unfold complete_pipeline.main at hm
    cases hf : complete_pipeline.fetch_weather env.outcome env.t0 env.t1 env.t2
        env.tz env.city with
    | none =>
        rw [hf] at hm
        injection hm with hm
        subst hm
        simp
    | some w =>
        rw [hf] at hm
        cases hsave : env.saveOk with
        | false =>
            rw [hsave] at hm
            simp at hm
        | true =>
            rw [hsave] at hm
            cases hu : complete_pipeline.upload_to_gcs env.gcp
                (complete_pipeline.save_locally env.dataDir env.tSave)
                env.tUpload env.uploadOk with
            | mk u calls =>
                rw [hu] at hm
                cases u with
                | none =>
                    injection hm with hm
                    subst hm
                    simp [truthy]
                | some ustr =>
                    have hne : ustr ≠ "" := upload_some_ne_empty env.gcp
                      (complete_pipeline.save_locally env.dataDir env.tSave)
                      env.tUpload env.uploadOk ustr (by rw [hu])
                    injection hm with hm
                    subst hm
                    simp [truthy, hne, complete_pipeline.load_to_bigquery]
  · intro h1 h2
    have h4 : (complete_pipeline.upload_to_gcs env.gcp
        (complete_pipeline.save_locally env.dataDir env.tSave)
        env.tUpload env.uploadOk).1 = none := by
      rw [h1]
      exact hfail _ _ _
    unfold complete_pipeline.main
    cases hf : complete_pipeline.fetch_weather env.outcome env.t0 env.t1 env.t2
        env.tz env.city with
    | none => exact ⟨rfl, _, rfl⟩
    | some w =>
        rw [h2]
        cases hu : complete_pipeline.upload_to_gcs env.gcp
            (complete_pipeline.save_locally env.dataDir env.tSave)
            env.tUpload env.uploadOk with
        | mk u calls =>
            have hnone : u = none := by
              rw [hu] at h4
              exact h4
            subst hnone
            exact ⟨rfl, _, rfl⟩


/-- C10 witness: the statement applied to a concrete skipped upload, a
concrete failed upload, and a concrete run whose upload fails. -/
theorem C10_wit :
    (complete_pipeline.upload_to_gcs ⟨none, none⟩ "f" ⟨0, 0⟩ true).1 = none ∧
    (complete_pipeline.upload_to_gcs ⟨some "p", some "b"⟩ "f" ⟨0, 0⟩ false).1 = none ∧
    complete_pipeline.bqCallsOf (complete_pipeline.main
      ⟨"Paris", "data", "weather_data", .resp ⟨200, some sampleBody⟩, ⟨0, 0⟩, ⟨0, 0⟩,
        ⟨0, 0⟩, ⟨0, 0⟩, ⟨0, 0⟩, 0, ⟨some "p", some "b"⟩, true, false⟩) = [] := by
  refine ⟨(C10_skip_and_failure_both_none ⟨none, none⟩ "f" ⟨0, 0⟩ true
      ⟨"Paris", "data", "weather_data", .resp ⟨200, some sampleBody⟩, ⟨0, 0⟩, ⟨0, 0⟩,
        ⟨0, 0⟩, ⟨0, 0⟩, ⟨0, 0⟩, 0, ⟨some "p", some "b"⟩, true, false⟩
      ⟨none, none, none, [], []⟩).1 (.inl rfl),
    (C10_skip_and_failure_both_none ⟨some "p", some "b"⟩ "f" ⟨0, 0⟩ false
      ⟨"Paris", "data", "weather_data", .resp ⟨200, some sampleBody⟩, ⟨0, 0⟩, ⟨0, 0⟩,
        ⟨0, 0⟩, ⟨0, 0⟩, ⟨0, 0⟩, 0, ⟨some "p", some "b"⟩, true, false⟩
      ⟨none, none, none, [], []⟩).2.1,
    ((C10_skip_and_failure_both_none ⟨some "p", some "b"⟩ "f" ⟨0, 0⟩ false
      ⟨"Paris", "data", "weather_data", .resp ⟨200, some sampleBody⟩, ⟨0, 0⟩, ⟨0, 0⟩,
        ⟨0, 0⟩, ⟨0, 0⟩, ⟨0, 0⟩, 0, ⟨some "p", some "b"⟩, true, false⟩
      ⟨none, none, none, [], []⟩).2.2.2 rfl rfl).1⟩

end WeatherPipeline
